import Mathlib

/-!
Shallow embedding of `pdebio.py` (PDE-BIO: Publication Data Extractor for
Biological Studies) and verification of its specification claims.

Remote Entrez calls are modelled as oracle functions passed explicitly:
`searchO` for `Entrez.esearch` (+ `Entrez.read`), `elinkO` for `Entrez.elink`
(+ `Entrez.read`), and `fetchO` for `Entrez.efetch` together with the field
parsing of the returned bibliographic record.  Files are modelled as lists of
lines; an `Option`/`Except` result models an uncaught Python exception (file
writes performed before the exception are not tracked).
-/

namespace PdeBio

/-- Python `s.split(sep)` for a single-character separator, accumulator form:
walks the characters, cutting at every occurrence of `sep`; `''.split(sep)`
yields `['']`. -/
def pySplitAux (sep : Char) : List Char → List Char → List String
  | [], acc => [String.mk acc.reverse]
  | c :: cs, acc =>
    if c = sep then String.mk acc.reverse :: pySplitAux sep cs []
    else pySplitAux sep cs (c :: acc)

/-- Python `s.split(sep)` for a single-character separator. -/
def pySplit (sep : Char) (s : String) : List String :=
  pySplitAux sep s.data []

/-- Python `sep.join(xs)`. -/
def pyJoin (sep : String) (xs : List String) : String :=
  String.intercalate sep xs

/-- One row of the summary dataset (`summary.csv`), fieldnames
`term,year,date,count,pmcid_list` as in `get_ids` / `construct_csv`. -/
structure SummaryRow where
  term : String
  year : String
  date : String
  count : String
  pmcid_list : String
deriving DecidableEq

/-- One line of the summary dataset file: the header line or a body row. -/
inductive SumLine where
  | header
  | row (r : SummaryRow)
deriving DecidableEq

/-- Result of one `Entrez.esearch` call as read by `Entrez.read`:
the fields `record['Count']` and `record['IdList']` used by `get_ids`. -/
structure EsearchResult where
  Count : String
  IdList : List String
deriving DecidableEq

/-- `get_ids term date email`: builds the search query
`'{term} AND {date}[Publication Date]'`, performs one remote search
(modelled by the oracle `searchO` on the query string; `none` models a
raised network/service error) and returns the summary row.  `year` is
`date.split('/')[0]` and `pmcid_list` is `','.join(record['IdList'])`. -/
def get_ids (searchO : String → Option EsearchResult) (term date : String) :
    Option SummaryRow :=
  let searchquery := term ++ " AND " ++ date ++ "[Publication Date]"
  (searchO searchquery).map fun record =>
    { term := term
      year := (pySplit '/' date).getD 0 ""
      date := date
      count := record.Count
      pmcid_list := pyJoin "," record.IdList }

/-- `construct_csv id_dict output_file`: appends one summary row to the
file, writing the header first exactly when the file has zero lines
(`len(open(output_file).readlines()) == 0`). -/
def construct_csv (id_dict : SummaryRow) (file : List SumLine) : List SumLine :=
  if file.length = 0 then [SumLine.header, SumLine.row id_dict]
  else file ++ [SumLine.row id_dict]

/-- `permutate_dates starting_year final_year`: the source builds
`years = range(start, final+1)` as strings, concrete month/day appendage
strings via `itertools.product`, zips the start dates with the finish dates
and joins each pair with `:`. -/
def permutate_dates (starting_year final_year : Int) : List String :=
  let years : List String :=
    (List.range (final_year + 1 - starting_year).toNat).map
      (fun (i : Nat) => toString (starting_year + (i : Int)))
  let month_appendages : List String := (List.range 12).map (fun x => toString (x + 1))
  let appendages_start : List String :=
    month_appendages.map (fun m => "/" ++ m ++ "/" ++ "1")
  let appendages_finish : List String :=
    month_appendages.map (fun m => "/" ++ m ++ "/" ++ "31")
  let dates_start : List String := years.flatMap (fun y => appendages_start.map (y ++ ·))
  let dates_finish : List String := years.flatMap (fun y => appendages_finish.map (y ++ ·))
  (dates_start.zip dates_finish).map (fun x => x.1 ++ ":" ++ x.2)

/-- The Date Windower as the spec describes it: for every year of the span in
ascending order and every month 1..12 in ascending order, one window string of
the form `Y/M/1:Y/M/31` (day 31 uniformly). -/
def specDateWindows (starting_year final_year : Int) : List String :=
  ((List.range (final_year + 1 - starting_year).toNat).map
      (fun (i : Nat) => starting_year + (i : Int))).flatMap fun y =>
    ((List.range 12).map (fun i => (i + 1 : Nat))).map fun m =>
      toString y ++ ("/" ++ toString m ++ "/" ++ "1") ++ ":"
        ++ (toString y ++ ("/" ++ toString m ++ "/" ++ "31"))

/-- `collect` phase of `get_data`: the first loop calls `get_ids` for every
date window, accumulating `data_list`; a raised search error (`none`) aborts
the whole loop before any file write happens. -/
def collectIds (searchO : String → Option EsearchResult) (term : String) :
    List String → Option (List SummaryRow)
  | [] => some []
  | d :: ds =>
    match get_ids searchO term d with
    | none => none
    | some r => (collectIds searchO term ds).map (r :: ·)

/-- `get_data term starting_year final_year email` in file-output mode
(`list_output = False`): first loop fetches every window via `get_ids`
(no file write), second loop appends each entry via `construct_csv`.
`Except.error f` models a raised search error with the output file left in
state `f`; `Except.ok f` is the final file of a completed run. -/
def get_data (searchO : String → Option EsearchResult) (term : String)
    (starting_year final_year : Int) (file : List SumLine) :
    Except (List SumLine) (List SumLine) :=
  match collectIds searchO term (permutate_dates starting_year final_year) with
  | none => Except.error file
  | some data_list => Except.ok (data_list.foldl (fun f e => construct_csv e f) file)

/-- `record[i]['LinkSetDb'][j]['Link'][k]` element: the field `['Id']`. -/
structure LinkItem where
  Id : String
deriving DecidableEq

/-- `record[i]['LinkSetDb'][j]` element: the field `['Link']`. -/
structure LinkSetDbEntry where
  Link : List LinkItem
deriving DecidableEq

/-- `record[i]` element of an `Entrez.elink` result: the field `['LinkSetDb']`. -/
structure LinkSetEntry where
  LinkSetDb : List LinkSetDbEntry
deriving DecidableEq

/-- `transform_id` applied to the record read from the `Entrez.elink` handle:
returns `record[0]['LinkSetDb'][0]['Link'][0]['Id']`, or the failure signal
(`False` in the source, `none` here) when any of the three indexings raises
`IndexError`. -/
def transform_id (record : List LinkSetEntry) : Option String :=
  match record with
  | [] => none
  | e :: _ =>
    match e.LinkSetDb with
    | [] => none
    | d :: _ =>
      match d.Link with
      | [] => none
      | l :: _ => some l.Id

/-- Whether the `elink` record has a linked entry at
`[0]['LinkSetDb'][0]['Link'][0]`. -/
def hasLinkedRecord : List LinkSetEntry → Bool
  | ⟨⟨_ :: _⟩ :: _⟩ :: _ => true
  | _ => false

/-- Parsed bibliographic fields of one `Entrez.efetch` result: what
`fetch_article_data` extracts from `record['PubmedArticle'][0]` (missing
sub-fields already rendered as empty strings by its `try`/`except KeyError`). -/
structure Fetched where
  title : String
  journal : String
  authors : String
  abstract : String
deriving DecidableEq

/-- The dictionary returned by `fetch_article_data`. -/
structure ArticleData where
  term : String
  year : String
  date : String
  pmid : String
  link : String
  title : String
  journal : String
  authors : String
  abstract : String
deriving DecidableEq

/-- `fetch_article_data pmid term date year email`: if `pmid is False`
(here `none`) it returns the blank record without touching the network
(the oracle `fetchO` is not consulted); otherwise it performs one remote
fetch, modelled by `fetchO` on the pmid, and fills in the parsed fields. -/
def fetch_article_data (pmid : Option String) (term date year : String)
    (fetchO : String → Fetched) : ArticleData :=
  match pmid with
  | none =>
    { term := term, year := year, date := date, pmid := "", link := ""
      title := "", journal := "", authors := "", abstract := "" }
  | some p =>
    let f := fetchO p
    { term := term, year := year, date := date, pmid := p
      link := "https://www.ncbi.nlm.nih.gov/pubmed/" ++ p
      title := f.title, journal := f.journal, authors := f.authors
      abstract := f.abstract }

/-- One row of the detail dataset (`articles.csv`), fieldnames
`term,year,date,pmid,pmcid,link,title,journal,authors,abstract` as in
`get_abstracts`. -/
structure DetailRow where
  term : String
  year : String
  date : String
  pmid : String
  pmcid : String
  link : String
  title : String
  journal : String
  authors : String
  abstract : String
deriving DecidableEq

/-- One line of the detail dataset file: the header line
(`term,year,date,pmid,pmcid,link,title,journal,authors,abstract`) or a
body row. -/
inductive DetailLine where
  | header
  | body (r : DetailRow)
deriving DecidableEq

/-- How `csv.DictReader` parses one non-first line of the detail file:
a body row is read back as itself; a (duplicated) header line would be read
as a row whose every field holds its own column name. -/
def lineToRow : DetailLine → DetailRow
  | DetailLine.header =>
    { term := "term", year := "year", date := "date", pmid := "pmid"
      pmcid := "pmcid", link := "link", title := "title", journal := "journal"
      authors := "authors", abstract := "abstract" }
  | DetailLine.body r => r

/-- `csv.DictReader` over the detail file: the first line supplies the
fieldnames, every further line is one row. -/
def readRows (lines : List DetailLine) : List DetailRow :=
  (lines.drop 1).map lineToRow

/-- Python `str(pmid)` as `csv.DictWriter` renders the `pmid` variable of
`get_abstracts`: the boolean failure signal `False` prints as `"False"`,
a string pmid prints as itself. -/
def pyStr : Option String → String
  | none => "False"
  | some s => s

/-- `'{}-{}-{}'.format(term, date, pmcid)`: the composite resume-cursor
string built by `get_abstracts`. -/
def fmtCursor (term date pmcid : String) : String :=
  term ++ "-" ++ date ++ "-" ++ pmcid

/-- `current.split('-')[i]`.  The source indexes the split unconditionally;
every `current` it builds contains at least two hyphens, so index 0, 1, 2
always exists and the default is never consulted. -/
def curPart (current : String) (i : Nat) : String :=
  (pySplit '-' current).getD i ""

/-- The detail row that one iteration of `get_abstracts` writes for
`pmcid` within summary row `termdate`: `transform_id` via the elink oracle,
then `fetch_article_data`, then the `csv.DictWriter.writerow` dictionary
(whose `pmid` and `link` entries use the raw `pmid` variable, so a failed
resolution is rendered as the string `"False"`). -/
def writtenRow (elinkO : String → List LinkSetEntry) (fetchO : String → Fetched)
    (termdate : SummaryRow) (pmcid : String) : DetailRow :=
  let pmid := transform_id (elinkO pmcid)
  let article_data := fetch_article_data pmid termdate.term termdate.date termdate.year fetchO
  { term := article_data.term
    year := article_data.year
    date := article_data.date
    pmid := pyStr pmid
    pmcid := pmcid
    link := "https://www.ncbi.nlm.nih.gov/pubmed/" ++ pyStr pmid
    title := article_data.title
    journal := article_data.journal
    authors := article_data.authors
    abstract := article_data.abstract }

/-- The mutable locals of the main loop of `get_abstracts`, plus the list of
body rows appended to the detail file so far in this run. -/
structure LoopState where
  current : String
  skip : Bool
  go_on : Bool
  written : List DetailRow
deriving DecidableEq

/-- The inner `for index, upmcid in enumerate(pmcids)` loop of
`get_abstracts`, one iteration at a time: when the identifier matches the
cursor's third component or `go_on` is set, the row is fetched and written
unless `skip` is set, `current` advances to the next identifier of the row
whenever the value `upmcid` differs from the value `pmcids[-1]`, and
`skip`/`go_on` become `False`/`True`. -/
def innerLoop (elinkO : String → List LinkSetEntry) (fetchO : String → Fetched)
    (termdate : SummaryRow) (pmcids : List String) :
    Nat → List String → LoopState → LoopState
  | _, [], st => st
  | index, upmcid :: rest, st =>
    let st' :=
      if upmcid = curPart st.current 2 ∨ st.go_on = true then
        { current :=
            if upmcid ≠ pmcids.getLastD "" then
              fmtCursor termdate.term termdate.date (pmcids.getD (index + 1) "")
            else st.current
          skip := false
          go_on := true
          written :=
            if st.skip then st.written
            else st.written ++ [writtenRow elinkO fetchO termdate upmcid] }
      else st
    innerLoop elinkO fetchO termdate pmcids (index + 1) rest st'

/-- One iteration of the outer `for termdate in csvdr_iterable` loop of
`get_abstracts`: the row is entered when its term and date equal the first
two components of the cursor, or when `go_on` is already set. -/
def outerStep (elinkO : String → List LinkSetEntry) (fetchO : String → Fetched)
    (st : LoopState) (termdate : SummaryRow) : LoopState :=
  if (termdate.term = curPart st.current 0 ∧ termdate.date = curPart st.current 1)
      ∨ st.go_on = true then
    innerLoop elinkO fetchO termdate (pySplit ',' termdate.pmcid_list) 0
      (pySplit ',' termdate.pmcid_list) st
  else st

/-- `get_abstracts email input_file output_file`: reads the summary rows,
computes the initial cursor (from the last row of an existing detail file,
else from the first identifier of the first summary row), runs the main
loop, and appends every written row to the detail file.  `none` models an
uncaught `IndexError`: `csvdr_iterable2[-1]` when the existing detail file
has no body rows, and `csvdr_iterable[0]` when the detail file is absent
and the summary is empty (file writes performed before the exception, such
as the fresh header, are not tracked in the `none` result). -/
def get_abstracts (elinkO : String → List LinkSetEntry) (fetchO : String → Fetched)
    (summary : List SummaryRow) (detail : Option (List DetailLine)) :
    Option (List DetailLine) :=
  match detail with
  | none =>
    match summary with
    | [] => none
    | s0 :: _ =>
      let current0 := fmtCursor s0.term s0.date ((pySplit ',' s0.pmcid_list).getD 0 "")
      let final := summary.foldl (outerStep elinkO fetchO)
        { current := current0, skip := false, go_on := false, written := [] }
      some (DetailLine.header :: final.written.map DetailLine.body)
  | some lines =>
    match (readRows lines).getLast? with
    | none => none
    | some lastRow =>
      let current0 := fmtCursor lastRow.term lastRow.date lastRow.pmcid
      let final := summary.foldl (outerStep elinkO fetchO)
        { current := current0, skip := true, go_on := false, written := [] }
      some (lines ++ final.written.map DetailLine.body)

/-- The reference stream of one summary row: the detail rows for its
identifiers `pmcid_list.split(',')` in stored order. -/
def rowRecords (elinkO : String → List LinkSetEntry) (fetchO : String → Fetched)
    (termdate : SummaryRow) : List DetailRow :=
  (pySplit ',' termdate.pmcid_list).map (writtenRow elinkO fetchO termdate)

/-- The reference stream of a summary dataset: all detail rows, flattened
across the rows' identifier lists in dataset order — the output of a
completed from-scratch run. -/
def runRecords (elinkO : String → List LinkSetEntry) (fetchO : String → Fetched)
    (summary : List SummaryRow) : List DetailRow :=
  summary.flatMap (rowRecords elinkO fetchO)

/-- A string without the cursor separator `-`. -/
def dashFree (s : String) : Prop := '-' ∉ s.data

instance (s : String) : Decidable (dashFree s) := by
  unfold dashFree; infer_instance

/-- Elink oracle for concrete scenarios: every cross-reference lookup comes
back with no linked record. -/
def elinkEmpty : String → List LinkSetEntry := fun _ => []

/-- Fetch oracle for concrete scenarios: every bibliographic field parses
as empty. -/
def fetchEmpty : String → Fetched :=
  fun _ => { title := "", journal := "", authors := "", abstract := "" }

/-- The summary row of the end-to-end scenarios of the spec. -/
def xrow : SummaryRow :=
  { term := "x", year := "2020", date := "2020/1/1:2020/1/31", count := "2"
    pmcid_list := "111,222" }

/-- A summary row whose identifier list repeats an identifier. -/
def dupRow : SummaryRow :=
  { term := "x", year := "2020", date := "2020/1/1:2020/1/31", count := "4"
    pmcid_list := "111,222,111,333" }

/-- A summary row whose term contains a hyphen. -/
def hyRow : SummaryRow :=
  { term := "a-b", year := "2020", date := "2020/1/1:2020/1/31", count := "2"
    pmcid_list := "111,222" }

/-! ### Lemmas about the Python split primitive -/

theorem pySplitAux_no_sep (sep : Char) :
    ∀ (cs acc : List Char), sep ∉ cs →
      pySplitAux sep cs acc = [String.mk (acc.reverse ++ cs)] := by
  intro cs
  induction cs with
  | nil => intro acc _; simp [pySplitAux]
  | cons c cs ih =>
    intro acc h
    have hc : ¬ c = sep := fun hh => h (hh ▸ List.mem_cons_self c cs)
    have hcs : sep ∉ cs := fun hh => h (List.mem_cons_of_mem c hh)
    simp only [pySplitAux, if_neg hc, ih (c :: acc) hcs]
    simp

theorem pySplitAux_sep_cut (sep : Char) :
    ∀ (cs rest acc : List Char), sep ∉ cs →
      pySplitAux sep (cs ++ sep :: rest) acc
        = String.mk (acc.reverse ++ cs) :: pySplitAux sep rest [] := by
  intro cs
  induction cs with
  | nil => intro rest acc _; simp [pySplitAux]
  | cons c cs ih =>
    intro rest acc h
    have hc : ¬ c = sep := fun hh => h (hh ▸ List.mem_cons_self c cs)
    have hcs : sep ∉ cs := fun hh => h (List.mem_cons_of_mem c hh)
    rw [List.cons_append]
    rw [show pySplitAux sep (c :: (cs ++ sep :: rest)) acc
          = pySplitAux sep (cs ++ sep :: rest) (c :: acc) from by
        simp [pySplitAux, if_neg hc]]
    rw [ih rest (c :: acc) hcs]
    simp

/-- Decoding the composite cursor: when term, date and pmcid are free of the
separator `-`, `current.split('-')` recovers exactly the three components. -/
theorem pySplit_fmtCursor (t d p : String)
    (ht : dashFree t) (hd : dashFree d) (hp : dashFree p) :
    pySplit '-' (fmtCursor t d p) = [t, d, p] := by
  have hdata : (fmtCursor t d p).data = t.data ++ '-' :: (d.data ++ '-' :: p.data) := by
    simp [fmtCursor, String.data_append]
  rw [pySplit, hdata, pySplitAux_sep_cut '-' t.data _ [] ht]
  rw [pySplitAux_sep_cut '-' d.data _ [] hd]
  rw [pySplitAux_no_sep '-' p.data [] hp]
  rfl

theorem curPart_fmtCursor (t d p : String)
    (ht : dashFree t) (hd : dashFree d) (hp : dashFree p) :
    curPart (fmtCursor t d p) 0 = t ∧ curPart (fmtCursor t d p) 1 = d
      ∧ curPart (fmtCursor t d p) 2 = p := by
  unfold curPart
  rw [pySplit_fmtCursor t d p ht hd hp]
  exact ⟨rfl, rfl, rfl⟩

/-! ### Basic facts about the written rows and the reference stream -/

@[simp] theorem lineToRow_body (r : DetailRow) : lineToRow (DetailLine.body r) = r := rfl

@[simp] theorem writtenRow_term (elinkO : String → List LinkSetEntry)
    (fetchO : String → Fetched) (td : SummaryRow) (q : String) :
    (writtenRow elinkO fetchO td q).term = td.term := by
  unfold writtenRow fetch_article_data
  cases transform_id (elinkO q) <;> rfl

@[simp] theorem writtenRow_date (elinkO : String → List LinkSetEntry)
    (fetchO : String → Fetched) (td : SummaryRow) (q : String) :
    (writtenRow elinkO fetchO td q).date = td.date := by
  unfold writtenRow fetch_article_data
  cases transform_id (elinkO q) <;> rfl

@[simp] theorem writtenRow_pmcid (elinkO : String → List LinkSetEntry)
    (fetchO : String → Fetched) (td : SummaryRow) (q : String) :
    (writtenRow elinkO fetchO td q).pmcid = q := by
  unfold writtenRow fetch_article_data
  cases transform_id (elinkO q) <;> rfl

@[simp] theorem runRecords_nil (elinkO : String → List LinkSetEntry)
    (fetchO : String → Fetched) : runRecords elinkO fetchO [] = [] := rfl

@[simp] theorem runRecords_cons (elinkO : String → List LinkSetEntry)
    (fetchO : String → Fetched) (td : SummaryRow) (rows : List SummaryRow) :
    runRecords elinkO fetchO (td :: rows)
      = rowRecords elinkO fetchO td ++ runRecords elinkO fetchO rows := by
  simp [runRecords]

@[simp] theorem runRecords_append (elinkO : String → List LinkSetEntry)
    (fetchO : String → Fetched) (a b : List SummaryRow) :
    runRecords elinkO fetchO (a ++ b)
      = runRecords elinkO fetchO a ++ runRecords elinkO fetchO b := by
  simp [runRecords]

/-! ### Lemmas about the main loop of `get_abstracts` -/

variable (elinkO : String → List LinkSetEntry) (fetchO : String → Fetched)

/-- Resuming mode: once `go_on` is set and `skip` is clear, the inner loop
fetches and writes every remaining identifier of the row, in order. -/
theorem innerLoop_resume (td : SummaryRow) (pm : List String) (rest : List String) :
    ∀ (idx : Nat) (st : LoopState), st.skip = false → st.go_on = true →
      ∃ c, innerLoop elinkO fetchO td pm idx rest st
        = ⟨c, false, true, st.written ++ rest.map (writtenRow elinkO fetchO td)⟩ := by
  induction rest with
  | nil =>
    intro idx st h1 h2
    refine ⟨st.current, ?_⟩
    cases st
    simp only [innerLoop, List.map_nil, List.append_nil]
    simp_all
  | cons q rest ih =>
    intro idx st h1 h2
    rw [innerLoop]
    rw [if_pos (Or.inr h2)]
    obtain ⟨c, hc⟩ := ih (idx + 1)
      { current := if q ≠ pm.getLastD "" then
            fmtCursor td.term td.date (pm.getD (idx + 1) "")
          else st.current
        skip := false
        go_on := true
        written := if st.skip then st.written
          else st.written ++ [writtenRow elinkO fetchO td q] }
      rfl rfl
    refine ⟨c, ?_⟩
    rw [hc]
    simp [h1]

/-- Resuming mode, outer loop: once `go_on` is set and `skip` is clear, every
remaining summary row is processed in full, appending its reference stream. -/
theorem foldl_outer_resume (rows : List SummaryRow) :
    ∀ (st : LoopState), st.skip = false → st.go_on = true →
      ∃ c, rows.foldl (outerStep elinkO fetchO) st
        = ⟨c, false, true, st.written ++ runRecords elinkO fetchO rows⟩ := by
  induction rows with
  | nil =>
    intro st h1 h2
    refine ⟨st.current, ?_⟩
    cases st
    simp_all
  | cons td rows ih =>
    intro st h1 h2
    rw [List.foldl_cons]
    have hstep : ∃ c, outerStep elinkO fetchO st td
        = ⟨c, false, true, st.written ++ rowRecords elinkO fetchO td⟩ := by
      rw [outerStep, if_pos (Or.inr h2)]
      exact innerLoop_resume elinkO fetchO td (pySplit ',' td.pmcid_list)
        (pySplit ',' td.pmcid_list) 0 st h1 h2
    obtain ⟨c1, hc1⟩ := hstep
    rw [hc1]
    obtain ⟨c2, hc2⟩ := ih ⟨c1, false, true, st.written ++ rowRecords elinkO fetchO td⟩ rfl rfl
    rw [hc2]
    exact ⟨c2, by simp⟩

/-- Skip-current mode inside the matching row: identifiers differing from the
cursor's third component are passed over without any state change. -/
theorem innerLoop_skip_prefix (td : SummaryRow) (pm : List String) (pre : List String) :
    ∀ (rest : List String) (idx : Nat) (st : LoopState), st.go_on = false →
      (∀ q ∈ pre, ¬ q = curPart st.current 2) →
      innerLoop elinkO fetchO td pm idx (pre ++ rest) st
        = innerLoop elinkO fetchO td pm (idx + pre.length) rest st := by
  induction pre with
  | nil => intro rest idx st _ _; simp
  | cons q pre ih =>
    intro rest idx st hgo hmem
    have hq : ¬ (q = curPart st.current 2 ∨ st.go_on = true) := by
      intro hor
      rcases hor with hl | hr
      · exact hmem q (List.mem_cons_self q pre) hl
      · rw [hgo] at hr; cases hr
    rw [List.cons_append, innerLoop, if_neg hq]
    rw [ih rest (idx + 1) st hgo (fun x hx => hmem x (List.mem_cons_of_mem q hx))]
    have harith : idx + 1 + pre.length = idx + (q :: pre).length := by
      simp; omega
    rw [harith]

/-- The step at the cursor's own identifier: it is consumed without a write
(`skip` is set), and everything after it in the row is fetched and written. -/
theorem innerLoop_match (td : SummaryRow) (pm : List String) (p : String)
    (post : List String) (idx : Nat) (st : LoopState)
    (hskip : st.skip = true) (_hgo : st.go_on = false)
    (hcur : curPart st.current 2 = p) :
    ∃ c, innerLoop elinkO fetchO td pm idx (p :: post) st
      = ⟨c, false, true, st.written ++ post.map (writtenRow elinkO fetchO td)⟩ := by
  rw [innerLoop, if_pos (Or.inl hcur.symm)]
  obtain ⟨c, hc⟩ := innerLoop_resume elinkO fetchO td pm post (idx + 1)
    { current := if p ≠ pm.getLastD "" then
          fmtCursor td.term td.date (pm.getD (idx + 1) "")
        else st.current
      skip := false
      go_on := true
      written := if st.skip then st.written
        else st.written ++ [writtenRow elinkO fetchO td p] }
    rfl rfl
  refine ⟨c, ?_⟩
  rw [hc]
  simp [hskip]

/-- Locating mode: a summary row whose term or date differs from the cursor's
components is passed over without any state change. -/
theorem foldl_outer_locate (rows : List SummaryRow) :
    ∀ (st : LoopState), st.go_on = false →
      (∀ td ∈ rows, ¬ (td.term = curPart st.current 0 ∧ td.date = curPart st.current 1)) →
      rows.foldl (outerStep elinkO fetchO) st = st := by
  induction rows with
  | nil => intro st _ _; rfl
  | cons td rows ih =>
    intro st hgo hmem
    have hcond : ¬ ((td.term = curPart st.current 0 ∧ td.date = curPart st.current 1)
        ∨ st.go_on = true) := by
      intro hor
      rcases hor with hl | hr
      · exact hmem td (List.mem_cons_self td rows) hl
      · rw [hgo] at hr; cases hr
    rw [List.foldl_cons, outerStep, if_neg hcond]
    exact ih st hgo (fun x hx => hmem x (List.mem_cons_of_mem td hx))

/-- The whole run of the main loop, started from the resume cursor
`(si.term, si.date, p)` with `skip` set: the locating prefix `Sb` is passed
over, within `si` everything up to and including `p` is skipped, and the
rest of `si` and all of `Sa` are fetched and written in order. -/
theorem foldl_outer_resume_run (Sb Sa : List SummaryRow) (si : SummaryRow)
    (pre post : List String) (p : String)
    (hsplit : pySplit ',' si.pmcid_list = pre ++ p :: post)
    (ht : dashFree si.term) (hd : dashFree si.date) (hp : dashFree p)
    (hb : ∀ td ∈ Sb, ¬ (td.term = si.term ∧ td.date = si.date))
    (hpre : p ∉ pre) :
    ∃ c, (Sb ++ si :: Sa).foldl (outerStep elinkO fetchO)
        { current := fmtCursor si.term si.date p, skip := true, go_on := false,
          written := [] }
      = ⟨c, false, true,
          post.map (writtenRow elinkO fetchO si) ++ runRecords elinkO fetchO Sa⟩ := by
  obtain ⟨hc0, hc1, hc2⟩ := curPart_fmtCursor si.term si.date p ht hd hp
  set st0 : LoopState :=
    { current := fmtCursor si.term si.date p, skip := true, go_on := false,
      written := [] } with hst0
  rw [List.foldl_append]
  rw [foldl_outer_locate elinkO fetchO Sb st0 rfl (by
    intro td htd
    rw [hst0]
    simp only [hc0, hc1]
    exact hb td htd)]
  rw [List.foldl_cons]
  have hrow : ∃ c, outerStep elinkO fetchO st0 si
      = ⟨c, false, true, post.map (writtenRow elinkO fetchO si)⟩ := by
    rw [outerStep, if_pos (Or.inl ⟨hc0.symm, hc1.symm⟩)]
    rw [hsplit, innerLoop_skip_prefix elinkO fetchO si _ pre (p :: post) 0 st0 rfl (by
      intro q hq hqeq
      rw [hst0] at hqeq
      simp only [hc2] at hqeq
      exact hpre (hqeq ▸ hq))]
    exact innerLoop_match elinkO fetchO si _ p post (0 + pre.length) st0 rfl rfl hc2
  obtain ⟨c1, hc1'⟩ := hrow
  rw [hc1']
  obtain ⟨c2, hc2'⟩ := foldl_outer_resume elinkO fetchO Sa
    ⟨c1, false, true, post.map (writtenRow elinkO fetchO si)⟩ rfl rfl
  rw [hc2']
  exact ⟨c2, rfl⟩

/-- Core resume equality: with the detail file holding the first records up
to and including identifier `p` of row `si`, the re-run appends exactly the
remaining records. -/
theorem get_abstracts_resume_core (Sb Sa : List SummaryRow) (si : SummaryRow)
    (pre post : List String) (p : String)
    (hsplit : pySplit ',' si.pmcid_list = pre ++ p :: post)
    (ht : dashFree si.term) (hd : dashFree si.date) (hp : dashFree p)
    (hb : ∀ td ∈ Sb, ¬ (td.term = si.term ∧ td.date = si.date))
    (hpre : p ∉ pre) :
    get_abstracts elinkO fetchO (Sb ++ si :: Sa)
        (some (DetailLine.header ::
          ((runRecords elinkO fetchO Sb
            ++ (pre ++ [p]).map (writtenRow elinkO fetchO si)).map DetailLine.body)))
      = some ((DetailLine.header ::
          ((runRecords elinkO fetchO Sb
            ++ (pre ++ [p]).map (writtenRow elinkO fetchO si)).map DetailLine.body))
          ++ (post.map (writtenRow elinkO fetchO si)
              ++ runRecords elinkO fetchO Sa).map DetailLine.body) := by
  set A : List DetailRow := runRecords elinkO fetchO Sb
    ++ (pre ++ [p]).map (writtenRow elinkO fetchO si) with hA
  have hread : readRows (DetailLine.header :: A.map DetailLine.body) = A := by
    have hcomp : lineToRow ∘ DetailLine.body = id := by funext r; rfl
    simp [readRows, hcomp]
  have hlast : A.getLast? = some (writtenRow elinkO fetchO si p) := by
    rw [hA]
    simp [List.getLast?_append]
  rw [get_abstracts, hread, hlast]
  obtain ⟨c, hc⟩ := foldl_outer_resume_run elinkO fetchO Sb Sa si pre post p
    hsplit ht hd hp hb hpre
  simp only [writtenRow_term, writtenRow_date, writtenRow_pmcid]
  rw [hc]

/-! ### Lemmas about the Date Windower -/

theorem permutate_aux (l : List Int) :
    ((((l.map (fun y => toString y)).flatMap fun y =>
        (["/1/1", "/2/1", "/3/1", "/4/1", "/5/1", "/6/1", "/7/1", "/8/1",
          "/9/1", "/10/1", "/11/1", "/12/1"].map (y ++ ·))).zip
      ((l.map (fun y => toString y)).flatMap fun y =>
        (["/1/31", "/2/31", "/3/31", "/4/31", "/5/31", "/6/31", "/7/31", "/8/31",
          "/9/31", "/10/31", "/11/31", "/12/31"].map (y ++ ·)))).map
      fun x => x.1 ++ ":" ++ x.2)
    = l.flatMap fun y =>
        ((List.range 12).map (fun i => (i + 1 : Nat))).map fun m =>
          toString y ++ ("/" ++ toString m ++ "/" ++ "1") ++ ":"
            ++ (toString y ++ ("/" ++ toString m ++ "/" ++ "31")) := by
  induction l with
  | nil => rfl
  | cons y l ih =>
    rw [List.map_cons, List.flatMap_cons, List.flatMap_cons]
    rw [List.zip_append (by simp)]
    rw [List.map_append, ih, List.flatMap_cons]
    congr 1

theorem permutate_dates_eq_spec (s e : Int) :
    permutate_dates s e = specDateWindows s e := by
  show List.map (fun (x : String × String) => x.1 ++ ":" ++ x.2)
      (List.zip
        (((List.range (e + 1 - s).toNat).map
            (fun (i : Nat) => toString (s + (i : Int)))).flatMap fun y =>
          (((List.range 12).map (fun x => toString (x + 1))).map
            (fun m => "/" ++ m ++ "/" ++ "1")).map (y ++ ·))
        (((List.range (e + 1 - s).toNat).map
            (fun (i : Nat) => toString (s + (i : Int)))).flatMap fun y =>
          (((List.range 12).map (fun x => toString (x + 1))).map
            (fun m => "/" ++ m ++ "/" ++ "31")).map (y ++ ·)))
    = specDateWindows s e
  have hmonths1 : ((List.range 12).map (fun x => toString (x + 1))).map
      (fun m => "/" ++ m ++ "/" ++ "1")
      = ["/1/1", "/2/1", "/3/1", "/4/1", "/5/1", "/6/1", "/7/1", "/8/1",
         "/9/1", "/10/1", "/11/1", "/12/1"] := by rfl
  have hmonths31 : ((List.range 12).map (fun x => toString (x + 1))).map
      (fun m => "/" ++ m ++ "/" ++ "31")
      = ["/1/31", "/2/31", "/3/31", "/4/31", "/5/31", "/6/31", "/7/31", "/8/31",
         "/9/31", "/10/31", "/11/31", "/12/31"] := by rfl
  have hyears : (List.range (e + 1 - s).toNat).map
        (fun (i : Nat) => toString (s + (i : Int)))
      = ((List.range (e + 1 - s).toNat).map
          (fun (i : Nat) => s + (i : Int))).map (fun y => toString y) := by
    rw [List.map_map]; rfl
  rw [hmonths1, hmonths31, hyears]
  exact permutate_aux ((List.range (e + 1 - s).toNat).map (fun (i : Nat) => s + (i : Int)))

theorem specDateWindows_length_aux (l : List Int) :
    (l.flatMap fun y =>
        ((List.range 12).map (fun i => (i + 1 : Nat))).map fun m =>
          toString y ++ ("/" ++ toString m ++ "/" ++ "1") ++ ":"
            ++ (toString y ++ ("/" ++ toString m ++ "/" ++ "31"))).length
      = 12 * l.length := by
  induction l with
  | nil => rfl
  | cons y l ih =>
    simp only [List.flatMap_cons, List.length_append, ih, List.length_cons]
    simp
    omega

/-! ### Unfolding lemmas for `get_abstracts` -/

theorem get_abstracts_some (S : List SummaryRow) (lines : List DetailLine)
    (lastRow : DetailRow) (h : (readRows lines).getLast? = some lastRow) :
    get_abstracts elinkO fetchO S (some lines)
      = some (lines ++ (S.foldl (outerStep elinkO fetchO)
          { current := fmtCursor lastRow.term lastRow.date lastRow.pmcid,
            skip := true, go_on := false,
            written := [] }).written.map DetailLine.body) := by
  rw [get_abstracts, h]

theorem get_abstracts_some_empty (S : List SummaryRow) (lines : List DetailLine)
    (h : readRows lines = []) :
    get_abstracts elinkO fetchO S (some lines) = none := by
  rw [get_abstracts, h]
  rfl

/-! ### Claim theorems -/

/-- C6: for every pair of integers with `start_year ≤ end_year`,
`permutate_dates` returns exactly `12*(end_year-start_year+1)` window
strings, ordered ascending by year and by month 1..12 within each year, each
of the form `Y/M/1:Y/M/31` (day 31 uniformly, no month-length correction) —
expressed as equality with the spec-shaped `specDateWindows` — and for
`start_year > end_year` it returns the empty sequence. -/
theorem permutate_dates_windows (s e : Int) :
    permutate_dates s e = specDateWindows s e
    ∧ (s ≤ e → (permutate_dates s e).length = 12 * (e - s + 1).toNat)
    ∧ (e < s → permutate_dates s e = []) := by
  refine ⟨permutate_dates_eq_spec s e, ?_, ?_⟩
  · intro hle
    rw [permutate_dates_eq_spec s e]
    unfold specDateWindows
    rw [specDateWindows_length_aux]
    simp only [List.length_map, List.length_range]
    congr 1
    omega
  · intro hlt
    rw [permutate_dates_eq_spec s e]
    unfold specDateWindows
    have hz : (e + 1 - s).toNat = 0 := by omega
    rw [hz]
    rfl

/-- Witness for C6 at `(2020, 2021)` and `(2021, 2019)`. -/
theorem permutate_dates_windows_witness :
    permutate_dates 2020 2021 = specDateWindows 2020 2021
    ∧ (permutate_dates 2020 2021).length = 12 * ((2021 : Int) - 2020 + 1).toNat
    ∧ permutate_dates 2021 2019 = [] :=
  ⟨(permutate_dates_windows 2020 2021).1,
   (permutate_dates_windows 2020 2021).2.1 (by decide),
   (permutate_dates_windows 2021 2019).2.2 (by decide)⟩

/-- C7: when the Identifier Resolver returned the failure signal (`pmid` is
`False`), `fetch_article_data` returns a record whose title, journal,
authors and abstract are empty strings and whose pmid and link are empty,
with term, year and date preserved from the inputs; the fetch oracle is
never consulted (the equality holds for every `fetchO`). -/
theorem fetch_article_data_blank (term date year : String)
    (fetchO : String → Fetched) :
    fetch_article_data none term date year fetchO
      = { term := term, year := year, date := date, pmid := "", link := ""
          title := "", journal := "", authors := "", abstract := "" } := rfl

/-- Witness for C7 at concrete inputs and a non-trivial fetch oracle. -/
theorem fetch_article_data_blank_witness :
    fetch_article_data none "x" "2020/1/1:2020/1/31" "2020"
        (fun _ => { title := "T", journal := "J", authors := "A", abstract := "B" })
      = { term := "x", year := "2020", date := "2020/1/1:2020/1/31", pmid := ""
          link := "", title := "", journal := "", authors := "", abstract := "" } :=
  fetch_article_data_blank "x" "2020/1/1:2020/1/31" "2020"
    (fun _ => { title := "T", journal := "J", authors := "A", abstract := "B" })

/-- C8: when the cross-reference lookup returns no linked record,
`transform_id` returns the failure signal `none` (never a valid identifier,
and without raising); when a linked record exists it returns the canonical
identifier `record[0].LinkSetDb[0].Link[0].Id`. -/
theorem transform_id_not_found (record : List LinkSetEntry) :
    (hasLinkedRecord record = false →
      transform_id record = none ∧ ∀ id : String, transform_id record ≠ some id)
    ∧ (∀ (l : LinkItem) (ls : List LinkItem) (ds : List LinkSetDbEntry)
        (rest : List LinkSetEntry),
        record = { LinkSetDb := ({ Link := l :: ls } : LinkSetDbEntry) :: ds } :: rest →
        transform_id record = some l.Id) := by
  constructor
  · intro h
    have hnone : transform_id record = none := by
      match record with
      | [] => rfl
      | { LinkSetDb := [] } :: rest => rfl
      | { LinkSetDb := { Link := [] } :: ds } :: rest => rfl
      | { LinkSetDb := { Link := lk :: ls } :: ds } :: rest =>
        simp [hasLinkedRecord] at h
    refine ⟨hnone, fun id hid => ?_⟩
    rw [hnone] at hid
    cases hid
  · rintro l ls ds rest rfl
    rfl

/-- Witness for C8: an empty record yields the failure signal, a populated
record yields its first linked identifier. -/
theorem transform_id_not_found_witness :
    transform_id [] = none
    ∧ transform_id
        [{ LinkSetDb := [{ Link := [{ Id := "7" }] }] }] = some "7" :=
  ⟨((transform_id_not_found []).1 rfl).1,
   (transform_id_not_found _).2 { Id := "7" } [] [] [] rfl⟩

/-- C2: on a from-scratch run (no detail file) over the single summary row
`{term: x, year: 2020, date: 2020/1/1:2020/1/31, count: 2, pmcid_list:
111,222}`, `get_abstracts` fetches and writes records for `111` and then
`222`, in that order, producing exactly two body rows — the first
identifier is not dropped. -/
theorem fresh_run_processes_first_identifier
    (elinkO : String → List LinkSetEntry) (fetchO : String → Fetched) :
    get_abstracts elinkO fetchO [xrow] none
      = some [DetailLine.header,
          DetailLine.body (writtenRow elinkO fetchO xrow "111"),
          DetailLine.body (writtenRow elinkO fetchO xrow "222")] := rfl

/-- Witness for C2 with the concrete oracles. -/
theorem fresh_run_processes_first_identifier_witness :
    get_abstracts elinkEmpty fetchEmpty [xrow] none
      = some [DetailLine.header,
          DetailLine.body (writtenRow elinkEmpty fetchEmpty xrow "111"),
          DetailLine.body (writtenRow elinkEmpty fetchEmpty xrow "222")] :=
  fresh_run_processes_first_identifier elinkEmpty fetchEmpty

/-- C3: when the detail dataset file exists but holds no body rows (header
only, or zero bytes), `get_abstracts` raises an uncaught `IndexError`
(`csvdr_iterable2[-1]` on the empty row list) — modelled as the `none`
result — instead of starting from the first identifier. -/
theorem empty_detail_file_raises (elinkO : String → List LinkSetEntry)
    (fetchO : String → Fetched) (S : List SummaryRow) (lines : List DetailLine)
    (h : readRows lines = []) :
    get_abstracts elinkO fetchO S (some lines) = none :=
  get_abstracts_some_empty elinkO fetchO S lines h

/-- Witness for C3: the failing inputs — a header-only detail file and a
zero-byte detail file. -/
theorem empty_detail_file_raises_witness :
    get_abstracts elinkEmpty fetchEmpty [xrow] (some [DetailLine.header]) = none
    ∧ get_abstracts elinkEmpty fetchEmpty [xrow] (some []) = none :=
  ⟨empty_detail_file_raises elinkEmpty fetchEmpty [xrow] [DetailLine.header] rfl,
   empty_detail_file_raises elinkEmpty fetchEmpty [xrow] [] rfl⟩

/-- C4: with the same single summary row and a detail dataset already
holding exactly one body row for pmcid `111` (term and date matching),
re-running `get_abstracts` appends exactly one new row, for `222`, and does
not re-append `111`. -/
theorem resume_skips_cursor_identifier
    (elinkO : String → List LinkSetEntry) (fetchO : String → Fetched)
    (r : DetailRow) (hterm : r.term = "x")
    (hdate : r.date = "2020/1/1:2020/1/31") (hpmcid : r.pmcid = "111") :
    get_abstracts elinkO fetchO [xrow] (some [DetailLine.header, DetailLine.body r])
      = some [DetailLine.header, DetailLine.body r,
          DetailLine.body (writtenRow elinkO fetchO xrow "222")] := by
  rw [get_abstracts_some elinkO fetchO [xrow] [DetailLine.header, DetailLine.body r] r rfl]
  rw [hterm, hdate, hpmcid]
  rfl

/-- Witness for C4 at a concrete already-written row. -/
theorem resume_skips_cursor_identifier_witness :
    get_abstracts elinkEmpty fetchEmpty [xrow]
        (some [DetailLine.header,
          DetailLine.body (writtenRow elinkEmpty fetchEmpty xrow "111")])
      = some [DetailLine.header,
          DetailLine.body (writtenRow elinkEmpty fetchEmpty xrow "111"),
          DetailLine.body (writtenRow elinkEmpty fetchEmpty xrow "222")] :=
  resume_skips_cursor_identifier elinkEmpty fetchEmpty
    (writtenRow elinkEmpty fetchEmpty xrow "111") rfl rfl rfl

/-- C1 (amended): resume correctness holds provided the cursor row's term,
date and cursor identifier contain no hyphen, no earlier summary row shares
the cursor row's (term, date) pair, and the cursor identifier does not occur
earlier in its own row's identifier list: the detail dataset holding the
first `k` records of the full run's output is left unchanged and exactly
records `k+1..N` are appended, in order, with no gaps and no duplicates. -/
theorem resume_appends_remaining
    (elinkO : String → List LinkSetEntry) (fetchO : String → Fetched)
    (Sb Sa : List SummaryRow) (si : SummaryRow)
    (pre post : List String) (p : String)
    (hsplit : pySplit ',' si.pmcid_list = pre ++ p :: post)
    (ht : dashFree si.term) (hd : dashFree si.date) (hp : dashFree p)
    (hb : ∀ td ∈ Sb, ¬ (td.term = si.term ∧ td.date = si.date))
    (hpre : p ∉ pre) :
    (runRecords elinkO fetchO (Sb ++ si :: Sa)).take
        ((runRecords elinkO fetchO Sb).length + pre.length + 1)
      = runRecords elinkO fetchO Sb ++ (pre ++ [p]).map (writtenRow elinkO fetchO si)
    ∧ get_abstracts elinkO fetchO (Sb ++ si :: Sa)
        (some (DetailLine.header :: ((runRecords elinkO fetchO (Sb ++ si :: Sa)).take
            ((runRecords elinkO fetchO Sb).length + pre.length + 1)).map DetailLine.body))
      = some ((DetailLine.header :: ((runRecords elinkO fetchO (Sb ++ si :: Sa)).take
            ((runRecords elinkO fetchO Sb).length + pre.length + 1)).map DetailLine.body)
          ++ ((runRecords elinkO fetchO (Sb ++ si :: Sa)).drop
            ((runRecords elinkO fetchO Sb).length + pre.length + 1)).map DetailLine.body) := by
  have hrow : rowRecords elinkO fetchO si
      = (pre ++ [p]).map (writtenRow elinkO fetchO si)
        ++ post.map (writtenRow elinkO fetchO si) := by
    rw [rowRecords, hsplit]
    simp
  have hR : runRecords elinkO fetchO (Sb ++ si :: Sa)
      = (runRecords elinkO fetchO Sb
          ++ (pre ++ [p]).map (writtenRow elinkO fetchO si))
        ++ (post.map (writtenRow elinkO fetchO si) ++ runRecords elinkO fetchO Sa) := by
    rw [runRecords_append, runRecords_cons, hrow]
    simp [List.append_assoc]
  have hlen : (runRecords elinkO fetchO Sb
        ++ (pre ++ [p]).map (writtenRow elinkO fetchO si)).length
      = (runRecords elinkO fetchO Sb).length + pre.length + 1 := by
    simp only [List.length_append, List.length_map, List.length_cons, List.length_nil]
    omega
  have htake : (runRecords elinkO fetchO (Sb ++ si :: Sa)).take
        ((runRecords elinkO fetchO Sb).length + pre.length + 1)
      = runRecords elinkO fetchO Sb
        ++ (pre ++ [p]).map (writtenRow elinkO fetchO si) := by
    rw [hR]
    exact List.take_left' hlen
  have hdrop : (runRecords elinkO fetchO (Sb ++ si :: Sa)).drop
        ((runRecords elinkO fetchO Sb).length + pre.length + 1)
      = post.map (writtenRow elinkO fetchO si) ++ runRecords elinkO fetchO Sa := by
    rw [hR]
    exact List.drop_left' hlen
  refine ⟨htake, ?_⟩
  rw [htake, hdrop]
  exact get_abstracts_resume_core elinkO fetchO Sb Sa si pre post p
    hsplit ht hd hp hb hpre

/-- Counterexample to C1 as stated: with the single summary row
`{term: x, ..., pmcid_list: 111,222,111,333}` (a repeated identifier), the
full run writes records for 111,222,111,333; resuming from the first three
records does not append exactly record 4 — the run matches the cursor
identifier `111` at its first occurrence and re-appends records 2 and 3. -/
theorem resume_appends_remaining_counterexample :
    get_abstracts elinkEmpty fetchEmpty [dupRow] none
      = some (DetailLine.header
          :: (runRecords elinkEmpty fetchEmpty [dupRow]).map DetailLine.body)
    ∧ get_abstracts elinkEmpty fetchEmpty [dupRow]
        (some (DetailLine.header
          :: ((runRecords elinkEmpty fetchEmpty [dupRow]).take 3).map DetailLine.body))
      ≠ some ((DetailLine.header
          :: ((runRecords elinkEmpty fetchEmpty [dupRow]).take 3).map DetailLine.body)
          ++ ((runRecords elinkEmpty fetchEmpty [dupRow]).drop 3).map DetailLine.body) :=
  ⟨rfl, by decide⟩

/-- Witness for C1 (amended) at the concrete one-row scenario, resuming
after its first identifier. -/
theorem resume_appends_remaining_witness :
    (runRecords elinkEmpty fetchEmpty (([] : List SummaryRow) ++ xrow :: ([] : List SummaryRow))).take
        ((runRecords elinkEmpty fetchEmpty ([] : List SummaryRow)).length
          + ([] : List String).length + 1)
      = runRecords elinkEmpty fetchEmpty ([] : List SummaryRow)
        ++ (([] : List String) ++ ["111"]).map (writtenRow elinkEmpty fetchEmpty xrow)
    ∧ get_abstracts elinkEmpty fetchEmpty (([] : List SummaryRow) ++ xrow :: ([] : List SummaryRow))
        (some (DetailLine.header
          :: ((runRecords elinkEmpty fetchEmpty (([] : List SummaryRow) ++ xrow :: ([] : List SummaryRow))).take
            ((runRecords elinkEmpty fetchEmpty ([] : List SummaryRow)).length
              + ([] : List String).length + 1)).map DetailLine.body))
      = some ((DetailLine.header
          :: ((runRecords elinkEmpty fetchEmpty (([] : List SummaryRow) ++ xrow :: ([] : List SummaryRow))).take
            ((runRecords elinkEmpty fetchEmpty ([] : List SummaryRow)).length
              + ([] : List String).length + 1)).map DetailLine.body)
          ++ ((runRecords elinkEmpty fetchEmpty (([] : List SummaryRow) ++ xrow :: ([] : List SummaryRow))).drop
            ((runRecords elinkEmpty fetchEmpty ([] : List SummaryRow)).length
              + ([] : List String).length + 1)).map DetailLine.body) :=
  resume_appends_remaining elinkEmpty fetchEmpty [] [] xrow [] ["222"] "111"
    rfl (by decide) (by decide) (by decide)
    (fun td htd => absurd htd (List.not_mem_nil td))
    (List.not_mem_nil "111")

/-- C5 (amended): the composite cursor `term + "-" + date + "-" + pmcid`
decodes back to the exact triple whenever term, date and pmcid are all
hyphen-free, and for a term containing a hyphen the comparison uses a
truncated term and a wrong date component, so the resume point is never
matched (the concrete hyphenated-term run appends nothing). -/
theorem cursor_roundtrip_dashfree (t d p : String)
    (ht : dashFree t) (hd : dashFree d) (hp : dashFree p) :
    (curPart (fmtCursor t d p) 0 = t ∧ curPart (fmtCursor t d p) 1 = d
      ∧ curPart (fmtCursor t d p) 2 = p)
    ∧ curPart (fmtCursor "a-b" "2020/1/1:2020/1/31" "111") 0 = "a"
    ∧ curPart (fmtCursor "a-b" "2020/1/1:2020/1/31" "111") 1 = "b"
    ∧ get_abstracts elinkEmpty fetchEmpty [hyRow]
        (some [DetailLine.header,
          DetailLine.body (writtenRow elinkEmpty fetchEmpty hyRow "111")])
      = some [DetailLine.header,
          DetailLine.body (writtenRow elinkEmpty fetchEmpty hyRow "111")] :=
  ⟨curPart_fmtCursor t d p ht hd hp, rfl, rfl, rfl⟩

/-- Counterexample to C5 as stated: for a last detail row with hyphen-free
term and date but a pmcid containing a hyphen, the decoded third component
is not the pmcid. -/
theorem cursor_roundtrip_counterexample :
    curPart (fmtCursor "x" "2020/1/1:2020/1/31" "1-2") 2 ≠ "1-2" := by decide

/-- Witness for C5 (amended) at a hyphen-free triple. -/
theorem cursor_roundtrip_dashfree_witness :
    (curPart (fmtCursor "x" "2020/1/1:2020/1/31" "111") 0 = "x"
      ∧ curPart (fmtCursor "x" "2020/1/1:2020/1/31" "111") 1 = "2020/1/1:2020/1/31"
      ∧ curPart (fmtCursor "x" "2020/1/1:2020/1/31" "111") 2 = "111")
    ∧ curPart (fmtCursor "a-b" "2020/1/1:2020/1/31" "111") 0 = "a"
    ∧ curPart (fmtCursor "a-b" "2020/1/1:2020/1/31" "111") 1 = "b"
    ∧ get_abstracts elinkEmpty fetchEmpty [hyRow]
        (some [DetailLine.header,
          DetailLine.body (writtenRow elinkEmpty fetchEmpty hyRow "111")])
      = some [DetailLine.header,
          DetailLine.body (writtenRow elinkEmpty fetchEmpty hyRow "111")] :=
  cursor_roundtrip_dashfree "x" "2020/1/1:2020/1/31" "111"
    (by decide) (by decide) (by decide)

/-- C9: against a pre-existing non-empty output file, the Summary Builder's
`construct_csv` appends exactly the body row (no second header), and
`get_abstracts` appends only body rows to an existing detail file; the
header is written only when the target is new or empty (`construct_csv` on
an empty file, `get_abstracts` with no detail file). -/
theorem header_written_once (id_dict : SummaryRow) (file : List SumLine)
    (hne : file ≠ [])
    (elinkO : String → List LinkSetEntry) (fetchO : String → Fetched)
    (S : List SummaryRow) (lines : List DetailLine) (lastRow : DetailRow)
    (hlast : (readRows lines).getLast? = some lastRow)
    (s0 : SummaryRow) (S0 : List SummaryRow) :
    construct_csv id_dict file = file ++ [SumLine.row id_dict]
    ∧ (∃ w : List DetailRow,
        get_abstracts elinkO fetchO S (some lines)
          = some (lines ++ w.map DetailLine.body))
    ∧ construct_csv id_dict [] = [SumLine.header, SumLine.row id_dict]
    ∧ ∃ w0 : List DetailRow,
        get_abstracts elinkO fetchO (s0 :: S0) none
          = some (DetailLine.header :: w0.map DetailLine.body) := by
  refine ⟨?_, ⟨_, get_abstracts_some elinkO fetchO S lines lastRow hlast⟩, rfl, ?_⟩
  · rw [construct_csv, if_neg (by simpa using hne)]
  · exact ⟨_, by rw [get_abstracts]⟩

/-- Witness for C9 at concrete non-empty files. -/
theorem header_written_once_witness :
    construct_csv xrow [SumLine.header] = [SumLine.header] ++ [SumLine.row xrow]
    ∧ (∃ w : List DetailRow,
        get_abstracts elinkEmpty fetchEmpty [xrow]
          (some [DetailLine.header,
            DetailLine.body (writtenRow elinkEmpty fetchEmpty xrow "111")])
        = some ([DetailLine.header,
            DetailLine.body (writtenRow elinkEmpty fetchEmpty xrow "111")]
            ++ w.map DetailLine.body))
    ∧ construct_csv xrow [] = [SumLine.header, SumLine.row xrow]
    ∧ ∃ w0 : List DetailRow,
        get_abstracts elinkEmpty fetchEmpty (xrow :: []) none
          = some (DetailLine.header :: w0.map DetailLine.body) :=
  header_written_once xrow [SumLine.header] (by decide) elinkEmpty fetchEmpty
    [xrow] [DetailLine.header,
      DetailLine.body (writtenRow elinkEmpty fetchEmpty xrow "111")]
    (writtenRow elinkEmpty fetchEmpty xrow "111") rfl xrow []

theorem collectIds_none (searchO : String → Option EsearchResult) (term : String) :
    ∀ ds : List String, (∃ d ∈ ds, get_ids searchO term d = none) →
      collectIds searchO term ds = none := by
  intro ds
  induction ds with
  | nil =>
    rintro ⟨d, hd, _⟩
    cases hd
  | cons d ds ih =>
    rintro ⟨d', hd', hnone⟩
    rw [collectIds]
    rcases List.mem_cons.mp hd' with rfl | hmem
    · rw [hnone]
    · cases hcase : get_ids searchO term d with
      | none => rfl
      | some r =>
        rw [ih ⟨d', hmem, hnone⟩]
        rfl

/-- C10: in file-output mode every remote search happens before any row is
appended, so a failing search for any date window aborts the run with the
output file unchanged. -/
theorem get_data_all_or_nothing (searchO : String → Option EsearchResult)
    (term : String) (starting_year final_year : Int) (file : List SumLine)
    (h : ∃ d ∈ permutate_dates starting_year final_year,
      get_ids searchO term d = none) :
    get_data searchO term starting_year final_year file = Except.error file := by
  rw [get_data, collectIds_none searchO term _ h]

/-- Witness for C10: a dead search service, one year of windows, a
pre-existing file. -/
theorem get_data_all_or_nothing_witness :
    get_data (fun _ => none) "x" 2020 2020 [SumLine.header]
      = Except.error [SumLine.header] :=
  get_data_all_or_nothing (fun _ => none) "x" 2020 2020 [SumLine.header] (by decide)

end PdeBio
